import Mathlib

/-!
Shallow embedding of the circle-fundr pool ledger & payout reconciliation
engine: the Stripe webhook handlers (handleCheckoutSessionCompleted,
handleTransferCreated, handleTransferFailed), the payment routes
(mark-paid, undo-manual, create-checkout-session) and the payout route
(request-payout).  Money amounts (JS numbers / DOUBLE PRECISION columns)
are modelled as rationals; database rows keyed by id are modelled as
association lists; a Prisma update that throws (P2025, record not found)
is modelled as Option.none.  A single PaymentEvent's state is carried
explicitly; the per-request external checks (workspace admin, payment
owner, event organizer with verified Stripe account, success of the
outbound Stripe call) are parameters of the operations.
-/

namespace CircleFundr

/-- Payment.status values from the Prisma schema: PENDING, PAID, FAILED. -/
inductive PayStatus
  | PENDING
  | PAID
  | FAILED
  deriving DecidableEq, Repr

/-- Payment.method values: STRIPE or MANUAL. -/
inductive PayMethod
  | STRIPE
  | MANUAL
  deriving DecidableEq, Repr

/-- Payout.status strings used by the routes: pending, in_transit, paid, failed. -/
inductive PayoutStatus
  | pending
  | in_transit
  | paid
  | failed
  deriving DecidableEq, Repr

/-- The stripeIntentId string field on Payment, which the source overloads:
either a Stripe checkout-session id, or the marker string written by
mark-paid as the concatenation of a fixed manual tag and the amount
(undo-manual recognises the tag and parses the amount back out).  The
string encoding is modelled as a tagged value. -/
inductive IntentId
  | session (sid : Nat)
  | manualTag (m : ℚ)
  deriving DecidableEq, Repr

/-- One Payment row (a member's contribution toward the event). -/
structure Payment where
  amountPaid : ℚ
  status : PayStatus
  method : PayMethod
  intent : Option IntentId
  deriving DecidableEq, Repr

/-- One Payout row (a withdrawal instruction against the event's pool). -/
structure Payout where
  amount : ℚ
  status : PayoutStatus
  transferId : Option Nat
  failureReason : Option String
  deriving DecidableEq, Repr

/-- The state of one PaymentEvent: its Payment rows, its Payout rows
(each keyed by id), and its poolBalance column. -/
structure EventState where
  payments : List (Nat × Payment)
  payouts : List (Nat × Payout)
  poolBalance : ℚ
  deriving DecidableEq, Repr

/-- findUnique by id over an association list of rows. -/
def lookupA {α : Type} (l : List (Nat × α)) (k : Nat) : Option α :=
  (l.find? (fun p => p.1 == k)).map Prod.snd

/-- update by id over an association list of rows. -/
def updateA {α : Type} (l : List (Nat × α)) (k : Nat) (f : α → α) : List (Nat × α) :=
  l.map (fun p => if p.1 == k then (p.1, f p.2) else p)

/-- Outcomes of the HTTP route handlers, named after the responses the
source sends (status code plus message). -/
inductive Outcome
  | okJson
  | created201
  | notFound404
  | notOwner403
  | notAdmin403
  | organizerCheck403
  | invalidAmount400
  | notManual400
  | insufficientBalance400
  | payoutInFlight400
  | transferInitFailed500
  deriving DecidableEq, Repr

/-- handleCheckoutSessionCompleted (src/unnamed/part_010, lines 105-191):
if session.payment_status is not the literal string for a paid session,
return without touching state; otherwise look the Payment up by the
paymentId carried in the session metadata (missing row: log and return);
otherwise set amountPaid to the old amountPaid plus the metadata's
chargeAmount, set status PAID and method STRIPE, store the session id,
and in the same transaction increment the event's poolBalance by
chargeAmount.  There is no check that the Payment is already PAID. -/
def handleCheckoutSessionCompleted (s : EventState) (paymentId sessionId : Nat)
    (payment_status : String) (chargeAmount : ℚ) : EventState :=
  if payment_status ≠ "paid" then s
  else
    match lookupA s.payments paymentId with
    | none => s
    | some _ =>
      { s with
        payments := updateA s.payments paymentId (fun p =>
          { amountPaid := p.amountPaid + chargeAmount
            status := .PAID
            method := .STRIPE
            intent := some (.session sessionId) })
        poolBalance := s.poolBalance + chargeAmount }

/-- handleTransferCreated (src/unnamed/part_010, lines 283-303): if the
transfer metadata has no payoutId, skip (acknowledged); otherwise run
prisma.payout.update unconditionally, setting status in_transit and
storing the transfer id.  prisma update throws (P2025) when no row has
that id, modelled as none; there is no check of the current status. -/
def handleTransferCreated (s : EventState) (payoutId : Option Nat)
    (transferId : Nat) : Option EventState :=
  match payoutId with
  | none => some s
  | some pid =>
    match lookupA s.payouts pid with
    | none => none
    | some _ =>
      some { s with
        payouts := updateA s.payouts pid (fun po =>
          { po with status := .in_transit, transferId := some transferId }) }

/-- The webhook route around handleTransferCreated (src/unnamed/part_010,
lines 84-99): a handler that throws is caught and answered with HTTP 500
("Webhook handler failed"); otherwise HTTP 200 ({received: true}). -/
def webhookTransferCreated (s : EventState) (payoutId : Option Nat)
    (transferId : Nat) : EventState × Nat :=
  match handleTransferCreated s payoutId transferId with
  | some s2 => (s2, 200)
  | none => (s, 500)

/-- handleTransferFailed (src/unnamed/part_010, lines 309-354): if the
transfer metadata has no payoutId, skip; look the Payout up by id
(missing row: log and return, acknowledged); otherwise, in one
transaction, set status failed, record the failure message (with the
fallback text when the message is absent), and increment the event's
poolBalance by the payout's amount.  There is no check of the current
status before crediting. -/
def handleTransferFailed (s : EventState) (payoutId : Option Nat)
    (failureMessage : Option String) : EventState :=
  match payoutId with
  | none => s
  | some pid =>
    match lookupA s.payouts pid with
    | none => s
    | some payout =>
      { s with
        payouts := updateA s.payouts pid (fun po =>
          { po with
            status := .failed
            failureReason := some (failureMessage.getD "Transfer failed") })
        poolBalance := s.poolBalance + payout.amount }

/-- POST /payments/:paymentId/mark-paid (src/unnamed/part_011, lines
205-283): amount must be a number greater than zero (else 400); the
Payment must exist (else 404); the caller must be a workspace admin
(else 403); then add amount to amountPaid, set status PAID and method
MANUAL, and store the manual marker with the amount so undo can subtract
it.  poolBalance is not touched. -/
def markPaid (s : EventState) (paymentId : Nat) (amount : ℚ) (isAdmin : Bool) :
    EventState × Outcome :=
  if amount ≤ 0 then (s, .invalidAmount400)
  else
    match lookupA s.payments paymentId with
    | none => (s, .notFound404)
    | some _ =>
      if !isAdmin then (s, .notAdmin403)
      else
        ({ s with
          payments := updateA s.payments paymentId (fun p =>
            { amountPaid := p.amountPaid + amount
              status := .PAID
              method := .MANUAL
              intent := some (.manualTag amount) }) }, .okJson)

/-- POST /payments/:paymentId/undo-manual (src/unnamed/part_011, lines
287-354): the Payment must exist (404) and the caller must be a
workspace admin (403); if method is not MANUAL or the stored intent is
not the manual marker, 400 ("This payment was not manually marked as
paid"); otherwise parse the manual amount out of the marker, set
amountPaid to max 0 (amountPaid - manualAmount), status PENDING, method
STRIPE, and clear the marker.  poolBalance is not touched. -/
def undoManual (s : EventState) (paymentId : Nat) (isAdmin : Bool) :
    EventState × Outcome :=
  match lookupA s.payments paymentId with
  | none => (s, .notFound404)
  | some p =>
    if !isAdmin then (s, .notAdmin403)
    else
      match p.method, p.intent with
      | .MANUAL, some (.manualTag m) =>
        ({ s with
          payments := updateA s.payments paymentId (fun q =>
            { amountPaid := max 0 (q.amountPaid - m)
              status := .PENDING
              method := .STRIPE
              intent := none }) }, .okJson)
      | _, _ => (s, .notManual400)

/-- POST /payments/:paymentId/create-checkout-session (src/unnamed/part_011,
lines 359-466): the Payment must exist (404); only the member the payment
belongs to may pay it (403); the body amount must be a number greater
than zero (400); then a Stripe checkout session is created for that
amount and its id is stored on the Payment with status PENDING and
method STRIPE.  There is no check that the Payment is already PAID, and
amountPaid is not changed here. -/
def createCheckoutSession (s : EventState) (paymentId : Nat) (isOwner : Bool)
    (amount : Option ℚ) (sessionId : Nat) : EventState × Outcome :=
  match lookupA s.payments paymentId with
  | none => (s, .notFound404)
  | some _ =>
    if !isOwner then (s, .notOwner403)
    else
      match amount with
      | none => (s, .invalidAmount400)
      | some a =>
        if a ≤ 0 then (s, .invalidAmount400)
        else
          ({ s with
            payments := updateA s.payments paymentId (fun p =>
              { p with
                intent := some (.session sessionId)
                status := .PENDING
                method := .STRIPE }) }, .okJson)

/-- The poolBalance value read by request-payout's initial
prisma.paymentEvent.findUnique (inside ensureEventOrganizer,
src/backend/src/routes/payouts.ts lines 22-67).  All later validation in
the route compares against this earlier read. -/
def readPoolBalance (s : EventState) : ℚ :=
  s.poolBalance

/-- Whether a Payout in status pending or in_transit exists - the
prisma.payout.findFirst check at payouts.ts lines 111-116, evaluated
against the state at the moment the query runs. -/
def hasPendingPayout (s : EventState) : Bool :=
  s.payouts.any (fun q => q.2.status == .pending || q.2.status == .in_transit)

/-- The validation phase of request-payout (payouts.ts lines 97-128):
amount must be positive, must not exceed the balance read earlier by
ensureEventOrganizer, and no pending/in_transit Payout may exist.  The
balance compared here is the earlier read, not re-read at transaction
time. -/
def payoutChecksPass (s : EventState) (readBalance requestedAmount : ℚ) : Bool :=
  decide (0 < requestedAmount) && decide (requestedAmount ≤ readBalance)
    && !hasPendingPayout s

/-- The reservation transaction of request-payout (payouts.ts lines
131-153): create the Payout row (status pending) and decrement
poolBalance by the requested amount.  The decrement is unconditional -
nothing in the transaction re-checks the balance. -/
def payoutReserveTxn (s : EventState) (payoutId : Nat) (requestedAmount : ℚ) :
    EventState :=
  { s with
    payouts := s.payouts ++ [(payoutId, ⟨requestedAmount, .pending, none, none⟩)]
    poolBalance := s.poolBalance - requestedAmount }

/-- POST /payment-events/:eventId/request-payout (payouts.ts lines
76-223), run sequentially: organizer/Stripe-account checks (403/404 via
ensureEventOrganizer, modelled by the organizerOk flag); requested
amount defaults to the pool balance read at call time; reject
non-positive amounts, amounts above that read balance, and an existing
pending/in_transit Payout; then the reservation transaction; then the
outbound stripe.transfers.create call (modelled by the transferSucceeds
flag): on success store the transfer id and answer 201, on synchronous
failure run the compensating transaction deleting the Payout row and
incrementing poolBalance back, answering 500. -/
def requestPayout (s : EventState) (payoutId : Nat) (amount : Option ℚ)
    (organizerOk transferSucceeds : Bool) (transferId : Nat) :
    EventState × Outcome :=
  if !organizerOk then (s, .organizerCheck403)
  else
    let bal := readPoolBalance s
    let requestedAmount := amount.getD bal
    if requestedAmount ≤ 0 then (s, .invalidAmount400)
    else if bal < requestedAmount then (s, .insufficientBalance400)
    else if hasPendingPayout s then (s, .payoutInFlight400)
    else
      let s1 := payoutReserveTxn s payoutId requestedAmount
      if transferSucceeds then
        ({ s1 with
          payouts := updateA s1.payouts payoutId (fun po =>
            { po with transferId := some transferId }) }, .created201)
      else
        ({ s1 with
          payouts := s1.payouts.filter (fun q => q.1 != payoutId)
          poolBalance := s1.poolBalance + requestedAmount }, .transferInitFailed500)

/-- An interleaved execution of two request-payout calls against the same
event in which both organizer reads and both validation/pending checks
run before either reservation transaction commits.  Each step is the
corresponding phase of the route; nothing in the source serializes the
phases of one request against the other (the validation uses the earlier
read, and the transaction's decrement is unconditional). -/
def twoConcurrentPayouts (s : EventState) (amount1 amount2 : ℚ) :
    EventState × Bool × Bool :=
  let read1 := readPoolBalance s
  let read2 := readPoolBalance s
  let go1 := payoutChecksPass s read1 amount1
  let go2 := payoutChecksPass s read2 amount2
  let s1 := if go1 then payoutReserveTxn s 1 amount1 else s
  let s2 := if go2 then payoutReserveTxn s1 2 amount2 else s1
  (s2, go1, go2)

/-- The exposed operations on one PaymentEvent's state, sequentially. -/
inductive Op
  | checkout (paymentId sessionId : Nat) (payment_status : String) (chargeAmount : ℚ)
  | manualPaid (paymentId : Nat) (amount : ℚ) (isAdmin : Bool)
  | manualUndo (paymentId : Nat) (isAdmin : Bool)
  | newSession (paymentId : Nat) (isOwner : Bool) (amount : Option ℚ) (sessionId : Nat)
  | payoutReq (payoutId : Nat) (amount : Option ℚ) (organizerOk transferSucceeds : Bool)
      (transferId : Nat)
  | transferCreatedN (payoutId : Option Nat) (transferId : Nat)
  | transferFailedN (payoutId : Option Nat) (failureMessage : Option String)
  deriving DecidableEq, Repr

/-- Apply one operation to the event state (the state part of each route). -/
def applyOp (s : EventState) (op : Op) : EventState :=
  match op with
  | .checkout pid sid st c => handleCheckoutSessionCompleted s pid sid st c
  | .manualPaid pid a adm => (markPaid s pid a adm).1
  | .manualUndo pid adm => (undoManual s pid adm).1
  | .newSession pid own a sid => (createCheckoutSession s pid own a sid).1
  | .payoutReq pid a org ts tid => (requestPayout s pid a org ts tid).1
  | .transferCreatedN pid tid => (webhookTransferCreated s pid tid).1
  | .transferFailedN pid msg => handleTransferFailed s pid msg

/-- Run a sequence of operations left to right. -/
def run (s : EventState) (ops : List Op) : EventState :=
  ops.foldl applyOp s

/-- A checkout notification's chargeAmount echoes the amount validated
positive when the session was created, so real notifications carry a
non-negative charge; other operations are unconstrained. -/
def chargeOk (op : Op) : Bool :=
  match op with
  | .checkout _ _ _ c => decide (0 ≤ c)
  | _ => true

/-- The totalPaidIn display sum (src/unnamed/part_011, lines 149-151):
sum of amountPaid over Payments with status PAID. -/
def totalPaidIn (s : EventState) : ℚ :=
  ((s.payments.filter (fun p => p.2.status == .PAID)).map
    (fun p => p.2.amountPaid)).sum

/-- The totalPaidOut display sum (src/unnamed/part_011, lines 153-155):
sum of amount over Payouts with status pending, in_transit or paid. -/
def totalPaidOut (s : EventState) : ℚ :=
  ((s.payouts.filter (fun q =>
      q.2.status == .pending || q.2.status == .in_transit || q.2.status == .paid)).map
    (fun q => q.2.amount)).sum

/-! ### Helper lemmas about the association-list primitives -/

theorem lookupA_mem {α : Type} {l : List (Nat × α)} {k : Nat} {v : α}
    (h : lookupA l k = some v) : ∃ p ∈ l, p.2 = v := by
  simp only [lookupA, Option.map_eq_some'] at h
  obtain ⟨p, hp, hv⟩ := h
  exact ⟨p, List.mem_of_find?_eq_some hp, hv⟩

theorem lookupA_updateA {α : Type} (l : List (Nat × α)) (k : Nat) (f : α → α) :
    lookupA (updateA l k f) k = (lookupA l k).map f := by
  induction l with
  | nil => rfl
  | cons p t ih =>
    by_cases hk : p.1 == k
    · simp only [lookupA, updateA, List.map_cons, List.find?_cons, hk, if_pos]
      rfl
    · simp only [lookupA, updateA, List.map_cons, List.find?_cons, hk, if_neg,
        Bool.false_eq_true, not_false_eq_true, if_false] at ih ⊢
      simpa only [lookupA, updateA] using ih

theorem updateA_forall {α : Type} {P : Nat × α → Prop} {l : List (Nat × α)}
    {k : Nat} {f : α → α}
    (h : ∀ q ∈ l, P q) (hf : ∀ q ∈ l, P (q.1, f q.2)) :
    ∀ q ∈ updateA l k f, P q := by
  intro q hq
  simp only [updateA, List.mem_map] at hq
  obtain ⟨p, hp, rfl⟩ := hq
  by_cases hk : p.1 == k
  · rw [if_pos hk]; exact hf p hp
  · rw [if_neg hk]; exact h p hp

theorem updateA_amount_nonneg {l : List (Nat × Payout)} {k : Nat} {f : Payout → Payout}
    (hf : ∀ po, (f po).amount = po.amount)
    (h : ∀ q ∈ l, 0 ≤ q.2.amount) :
    ∀ q ∈ updateA l k f, 0 ≤ q.2.amount :=
  updateA_forall h (fun q hq => by simpa only [hf] using h q hq)

/-- One operation preserves non-negativity of the pool balance and of
every Payout amount (sequential execution, charge amounts non-negative). -/
theorem applyOp_inv (s : EventState) (op : Op)
    (h0 : 0 ≤ s.poolBalance) (h1 : ∀ q ∈ s.payouts, 0 ≤ q.2.amount)
    (hc : chargeOk op = true) :
    0 ≤ (applyOp s op).poolBalance ∧ ∀ q ∈ (applyOp s op).payouts, 0 ≤ q.2.amount := by
  cases op with
  | checkout pid sid st c =>
    simp only [chargeOk, decide_eq_true_eq] at hc
    simp only [applyOp, handleCheckoutSessionCompleted]
    split
    · exact ⟨h0, h1⟩
    · cases hlk : lookupA s.payments pid with
      | none => exact ⟨h0, h1⟩
      | some p => exact ⟨add_nonneg h0 hc, h1⟩
  | manualPaid pid a adm =>
    simp only [applyOp, markPaid]
    split
    · exact ⟨h0, h1⟩
    · split
      · exact ⟨h0, h1⟩
      · split
        · exact ⟨h0, h1⟩
        · exact ⟨h0, h1⟩
  | manualUndo pid adm =>
    simp only [applyOp, undoManual]
    split
    · exact ⟨h0, h1⟩
    · split
      · exact ⟨h0, h1⟩
      · split
        · exact ⟨h0, h1⟩
        · exact ⟨h0, h1⟩
  | newSession pid own a sid =>
    simp only [applyOp, createCheckoutSession]
    split
    · exact ⟨h0, h1⟩
    · split
      · exact ⟨h0, h1⟩
      · split
        · exact ⟨h0, h1⟩
        · split
          · exact ⟨h0, h1⟩
          · exact ⟨h0, h1⟩
  | payoutReq pid a org ts tid =>
    simp only [applyOp, requestPayout, readPoolBalance, payoutReserveTxn]
    split
    · exact ⟨h0, h1⟩
    · split
      · exact ⟨h0, h1⟩
      · split
        · exact ⟨h0, h1⟩
        · split
          · exact ⟨h0, h1⟩
          · rename_i hodef hle hlt hpend
            have hra : 0 < Option.getD a s.poolBalance := lt_of_not_ge hle
            have hbal : Option.getD a s.poolBalance ≤ s.poolBalance := le_of_not_gt hlt
            have happ : ∀ q ∈ s.payouts ++
                [(pid, (⟨Option.getD a s.poolBalance, .pending, none, none⟩ : Payout))],
                0 ≤ q.2.amount := by
              intro q hq
              rcases List.mem_append.1 hq with hq | hq
              · exact h1 q hq
              · simp only [List.mem_singleton] at hq
                subst hq
                exact le_of_lt hra
            split
            · refine ⟨sub_nonneg.2 hbal, ?_⟩
              have hupd := updateA_amount_nonneg (k := pid)
                (f := fun po => { po with transferId := some tid }) (fun po => rfl) happ
              intro q hq
              exact hupd q hq
            · refine ⟨by rw [sub_add_cancel]; exact h0, ?_⟩
              intro q hq
              exact happ q (List.mem_of_mem_filter hq)
  | transferCreatedN pid tid =>
    cases pid with
    | none => exact ⟨h0, h1⟩
    | some k =>
      cases hlk : lookupA s.payouts k with
      | none =>
        simp only [applyOp, webhookTransferCreated, handleTransferCreated, hlk]
        exact ⟨h0, h1⟩
      | some po =>
        simp only [applyOp, webhookTransferCreated, handleTransferCreated, hlk]
        exact ⟨h0, updateA_amount_nonneg (fun po => rfl) h1⟩
  | transferFailedN pid msg =>
    cases pid with
    | none => exact ⟨h0, h1⟩
    | some k =>
      cases hlk : lookupA s.payouts k with
      | none =>
        simp only [applyOp, handleTransferFailed, hlk]
        exact ⟨h0, h1⟩
      | some po =>
        obtain ⟨q, hq, hq2⟩ := lookupA_mem hlk
        have hpo : 0 ≤ po.amount := hq2 ▸ h1 q hq
        simp only [applyOp, handleTransferFailed, hlk]
        exact ⟨add_nonneg h0 hpo, updateA_amount_nonneg (fun po => rfl) h1⟩

/-- A whole sequence of operations preserves the two non-negativity facts. -/
theorem run_inv (ops : List Op) (s : EventState)
    (h0 : 0 ≤ s.poolBalance) (h1 : ∀ q ∈ s.payouts, 0 ≤ q.2.amount)
    (hc : ∀ op ∈ ops, chargeOk op = true) :
    0 ≤ (run s ops).poolBalance ∧ ∀ q ∈ (run s ops).payouts, 0 ≤ q.2.amount := by
  induction ops generalizing s with
  | nil => exact ⟨h0, h1⟩
  | cons op t ih =>
    have h := applyOp_inv s op h0 h1 (hc op (List.mem_cons_self op t))
    exact ih (applyOp s op) h.1 h.2 (fun o ho => hc o (List.mem_cons_of_mem op ho))

/-! ### Claim theorems -/

/-- Claim C1, amended: after any sequence of the exposed operations applied
sequentially from a state with non-negative pool balance and non-negative
payout amounts, with checkout charge amounts non-negative (checkout sessions
are only created after the amount is validated positive), poolBalance stays
non-negative.  The claimed equality of poolBalance with the PAID-contribution
sum minus the reserved-and-paid payout sum does not hold: manual settlement
raises the PAID sum without crediting the pool (see the counterexample). -/
theorem poolBalance_nonneg_of_run (s : EventState) (ops : List Op)
    (h0 : 0 ≤ s.poolBalance) (h1 : ∀ q ∈ s.payouts, 0 ≤ q.2.amount)
    (hc : ∀ op ∈ ops, chargeOk op = true) :
    0 ≤ (run s ops).poolBalance :=
  (run_inv ops s h0 h1 hc).1

/-- Witness for C1: a concrete run - a checkout settlement of 50 followed by a
payout request of 30 - keeps the balance non-negative. -/
theorem poolBalance_nonneg_of_run_witness :
    0 ≤ (run ⟨[(1, ⟨0, .PENDING, .STRIPE, none⟩)], [], 0⟩
      [.checkout 1 7 "paid" 50, .payoutReq 2 (some 30) true true 9]).poolBalance :=
  poolBalance_nonneg_of_run _ _ (by norm_num) (by simp) (by norm_num [chargeOk])

/-- Counterexample for C1: one mark-paid of 30 on a fresh event gives a PAID
contribution sum of 30, no payouts, and poolBalance still 0, refuting the
claimed ledger equality. -/
theorem ledger_equality_fails_on_manual_settlement :
    let s1 := run ⟨[(1, ⟨0, .PENDING, .STRIPE, none⟩)], [], 0⟩ [.manualPaid 1 30 true]
    ¬ (s1.poolBalance = totalPaidIn s1 - totalPaidOut s1) := by
  norm_num [run, applyOp, markPaid, lookupA, updateA, List.find?, totalPaidIn,
    totalPaidOut, List.filter]

/-- Claim C2 is refuted by the code: handleCheckoutSessionCompleted has no
already-PAID check, so delivering the same checkout.completed notification
(same session, same charge) a second time adds the charge amount to the
Contribution's cumulative amount and to poolBalance again: after the first
delivery amountPaid and the pool are 50, after the duplicate they are 100. -/
theorem checkout_completed_not_idempotent :
    let s0 : EventState := ⟨[(1, ⟨0, .PENDING, .STRIPE, none⟩)], [], 0⟩
    let s1 := handleCheckoutSessionCompleted s0 1 7 "paid" 50
    let s2 := handleCheckoutSessionCompleted s1 1 7 "paid" 50
    lookupA s1.payments 1 = some ⟨50, .PAID, .STRIPE, some (.session 7)⟩
      ∧ s1.poolBalance = 50
      ∧ lookupA s2.payments 1 = some ⟨100, .PAID, .STRIPE, some (.session 7)⟩
      ∧ s2.poolBalance = 100 := by
  norm_num [handleCheckoutSessionCompleted, lookupA, updateA, List.find?]

/-- Claim C3, first half holds and second half is refuted by the code: a
transfer.failed notification for a pending PayoutRequest of 40 marks it failed,
records the reason and credits the pool by exactly 40 (10 to 50); but the
handler never checks the current status, so a second delivery of the same
notification credits the pool again (50 to 90). -/
theorem transfer_failed_double_refund :
    let s0 : EventState := ⟨[], [(5, ⟨40, .pending, none, none⟩)], 10⟩
    let s1 := handleTransferFailed s0 (some 5) (some "insufficient funds")
    s1.poolBalance = 50
      ∧ lookupA s1.payouts 5 = some ⟨40, .failed, none, some "insufficient funds"⟩
      ∧ (handleTransferFailed s1 (some 5) (some "insufficient funds")).poolBalance = 90 := by
  norm_num [handleTransferFailed, lookupA, updateA, List.find?]

/-- Claim C4 is refuted by the code: handleTransferCreated updates
unconditionally, so a transfer.created notification for a PayoutRequest already
in the terminal status failed moves it back to in_transit - the status machine
regresses out of a terminal state. -/
theorem transfer_created_regresses_terminal :
    lookupA ((webhookTransferCreated ⟨[], [(5, ⟨40, .failed, none, some "boom"⟩)], 40⟩
        (some 5) 9).1).payouts 5
      = some ⟨40, .in_transit, some 9, some "boom"⟩ := rfl

/-- Claim C5 is refuted by the code: request-payout validates the amount
against the poolBalance read by the initial findUnique, and the reservation
transaction decrements unconditionally.  In the interleaving where both
requests read balance 100 and pass validation before either transaction
commits, two payouts of 60 both succeed and the balance ends at -20. -/
theorem concurrent_payouts_drive_balance_negative :
    (twoConcurrentPayouts ⟨[], [], 100⟩ 60 60).2.1 = true
      ∧ (twoConcurrentPayouts ⟨[], [], 100⟩ 60 60).2.2 = true
      ∧ (twoConcurrentPayouts ⟨[], [], 100⟩ 60 60).1.poolBalance = -20 := by
  norm_num [twoConcurrentPayouts, payoutChecksPass, payoutReserveTxn, readPoolBalance,
    hasPendingPayout]

/-- Counterexample for C6: a Payment already PAID (50 settled) still gets a
checkout session when the owning member asks for 10 - the route has no
AlreadySettled check, refuting the claimed error condition. -/
theorem checkout_session_allowed_when_already_paid :
    (createCheckoutSession ⟨[(1, ⟨50, .PAID, .STRIPE, none⟩)], [], 50⟩ 1 true (some 10) 7).2
      = .okJson := by
  norm_num [createCheckoutSession, lookupA, List.find?]

/-- Claim C6, amended: for an existing Payment, create-checkout-session fails
with NotOwner when the actor is not the owning member, with InvalidAmount when
the amount is missing or non-positive, and succeeds otherwise - regardless of
the Payment's status; there is no AlreadySettled check. -/
theorem createCheckoutSession_guards (s : EventState) (pid sid : Nat) (own : Bool)
    (a : Option ℚ) (p : Payment) (hp : lookupA s.payments pid = some p) :
    (createCheckoutSession s pid own a sid).2 =
      (if !own then .notOwner403
       else match a with
       | none => .invalidAmount400
       | some x => if x ≤ 0 then .invalidAmount400 else .okJson) := by
  unfold createCheckoutSession
  rw [hp]
  cases own with
  | false => rfl
  | true =>
    cases a with
    | none => rfl
    | some x =>
      by_cases hx : x ≤ 0
      · simp [hx]
      · simp [hx]

/-- Witness for C6: the owning member asking for 10 on an already-PAID Payment
gets the success outcome. -/
theorem createCheckoutSession_guards_witness :
    (createCheckoutSession ⟨[(1, ⟨50, .PAID, .STRIPE, none⟩)], [], 50⟩ 1 true (some 10) 7).2
      = (if !true then Outcome.notOwner403
         else match (some (10:ℚ) : Option ℚ) with
         | none => Outcome.invalidAmount400
         | some x => if x ≤ 0 then Outcome.invalidAmount400 else Outcome.okJson) :=
  createCheckoutSession_guards _ 1 7 true (some 10) ⟨50, .PAID, .STRIPE, none⟩ rfl

/-- Counterexample for C7: mark-paid of 30, then an external settlement of 20
on the same Payment (which overwrites the manual marker with the session id),
then undo-manual: the undo is rejected with the not-manually-marked error and
the cumulative amount stays 50 instead of reverting the manual 30. -/
theorem undo_manual_blocked_by_intervening_settlement :
    let s0 : EventState := ⟨[(1, ⟨0, .PENDING, .STRIPE, none⟩)], [], 0⟩
    let s2 := handleCheckoutSessionCompleted ((markPaid s0 1 30 true).1) 1 7 "paid" 20
    (undoManual s2 1 true).2 = .notManual400
      ∧ lookupA ((undoManual s2 1 true).1).payments 1
          = some ⟨50, .PAID, .STRIPE, some (.session 7)⟩ := by
  norm_num [markPaid, undoManual, handleCheckoutSessionCompleted, lookupA, updateA,
    List.find?]

/-- Claim C7, amended: mark-paid with amount m immediately followed by
undo-manual restores the Payment exactly - cumulative amount back to its
previous (non-negative) value, status PENDING, marker cleared; the undo
subtracts exactly the recorded manual delta, floored at 0.  An intervening
settlement can overwrite the recorded marker and break exact reversal (see
the counterexample). -/
theorem manual_then_undo_restores_amount (s : EventState) (pid : Nat) (m : ℚ)
    (p : Payment) (hp : lookupA s.payments pid = some p) (hm : 0 < m)
    (ha : 0 ≤ p.amountPaid) :
    lookupA ((undoManual (markPaid s pid m true).1 pid true).1).payments pid
      = some ⟨p.amountPaid, .PENDING, .STRIPE, none⟩ := by
  have hmarks : (markPaid s pid m true).1
      = { s with payments := updateA s.payments pid (fun q =>
          ⟨q.amountPaid + m, .PAID, .MANUAL, some (.manualTag m)⟩) } := by
    unfold markPaid
    rw [if_neg (not_le.2 hm), hp]
    rfl
  have hl1 : lookupA ((markPaid s pid m true).1).payments pid
      = some ⟨p.amountPaid + m, .PAID, .MANUAL, some (.manualTag m)⟩ := by
    rw [hmarks]
    show lookupA (updateA s.payments pid (fun q =>
        (⟨q.amountPaid + m, .PAID, .MANUAL, some (.manualTag m)⟩ : Payment))) pid
      = some ⟨p.amountPaid + m, .PAID, .MANUAL, some (.manualTag m)⟩
    rw [lookupA_updateA, hp]
    rfl
  have hundo : (undoManual (markPaid s pid m true).1 pid true).1
      = { payments := updateA ((markPaid s pid m true).1).payments pid (fun q =>
            ⟨max 0 (q.amountPaid - m), .PENDING, .STRIPE, none⟩)
          payouts := ((markPaid s pid m true).1).payouts
          poolBalance := ((markPaid s pid m true).1).poolBalance } := by
    unfold undoManual
    rw [hl1]
    rfl
  rw [hundo]
  show lookupA (updateA ((markPaid s pid m true).1).payments pid (fun q =>
      (⟨max 0 (q.amountPaid - m), .PENDING, .STRIPE, none⟩ : Payment))) pid
    = some ⟨p.amountPaid, .PENDING, .STRIPE, none⟩
  rw [lookupA_updateA, hl1]
  show some (⟨max 0 (p.amountPaid + m - m), .PENDING, .STRIPE, none⟩ : Payment)
    = some ⟨p.amountPaid, .PENDING, .STRIPE, none⟩
  rw [add_sub_cancel_right, max_eq_right ha]

/-- Witness for C7: amount 20 already settled, mark-paid 30 then undo-manual
returns the Payment to amount 20, PENDING, no marker. -/
theorem manual_then_undo_restores_amount_witness :
    lookupA ((undoManual
        (markPaid ⟨[(1, ⟨20, .PENDING, .STRIPE, none⟩)], [], 0⟩ 1 30 true).1 1 true).1).payments 1
      = some ⟨20, .PENDING, .STRIPE, none⟩ :=
  manual_then_undo_restores_amount _ 1 30 ⟨20, .PENDING, .STRIPE, none⟩ rfl
    (by norm_num) (by norm_num)

/-- Claim C8 is refuted by the code for transfer.created: with a payoutId that
matches no Payout row, prisma payout.update throws (P2025), the route's catch
answers HTTP 500 "Webhook handler failed", and the notification is NOT
acknowledged as consumed (Stripe will retry). -/
theorem transfer_created_unknown_payout_returns_500 :
    webhookTransferCreated ⟨[], [], 0⟩ (some 99) 7 = (⟨[], [], 0⟩, 500) := rfl

/-- Claim C9: when the synchronous stripe.transfers.create call fails,
request-payout's compensating transaction deletes the just-created Payout row
and credits the reserved amount back, leaving the event state exactly as it
was before the call, and answers with the 500 transfer-failure outcome. -/
theorem requestPayout_transfer_failure_restores_state (s : EventState) (pid tid : Nat)
    (a : ℚ) (hpos : 0 < a) (hle : a ≤ s.poolBalance)
    (hpend : hasPendingPayout s = false)
    (hfresh : ∀ q ∈ s.payouts, q.1 ≠ pid) :
    requestPayout s pid (some a) true false tid = (s, .transferInitFailed500) := by
  have hfil : (s.payouts ++ [(pid, (⟨a, .pending, none, none⟩ : Payout))]).filter
      (fun q => q.1 != pid) = s.payouts := by
    rw [List.filter_append]
    have h2 : ([(pid, (⟨a, .pending, none, none⟩ : Payout))]).filter
        (fun q => q.1 != pid) = [] := by simp
    rw [h2, List.append_nil, List.filter_eq_self]
    intro q hq
    simpa using hfresh q hq
  unfold requestPayout readPoolBalance payoutReserveTxn
  simp only [Option.getD_some, Bool.not_true, Bool.false_eq_true, if_false,
    if_neg (not_le.2 hpos), if_neg (not_lt.2 hle), hpend, hfil, sub_add_cancel]

/-- Witness for C9: balance 100, payout request of 60 whose transfer call
fails, state restored verbatim. -/
theorem requestPayout_transfer_failure_restores_state_witness :
    requestPayout ⟨[], [], 100⟩ 5 (some 60) true false 9
      = (⟨[], [], 100⟩, .transferInitFailed500) :=
  requestPayout_transfer_failure_restores_state _ 5 9 60 (by norm_num) (by norm_num)
    rfl (by simp)

/-- Claim C10: a checkout.session.completed notification whose payment_status
is not the paid literal changes no state at all - the handler returns before
any database write. -/
theorem checkout_unpaid_session_noop (s : EventState) (pid sid : Nat) (st : String)
    (c : ℚ) (hst : st ≠ "paid") :
    handleCheckoutSessionCompleted s pid sid st c = s := by
  unfold handleCheckoutSessionCompleted
  rw [if_pos hst]

/-- Witness for C10: an unpaid session leaves a concrete state untouched. -/
theorem checkout_unpaid_session_noop_witness :
    handleCheckoutSessionCompleted ⟨[(1, ⟨0, .PENDING, .STRIPE, none⟩)], [], 0⟩ 1 7 "unpaid" 50
      = ⟨[(1, ⟨0, .PENDING, .STRIPE, none⟩)], [], 0⟩ :=
  checkout_unpaid_session_noop _ 1 7 "unpaid" 50 (by decide)

end CircleFundr
